import Mathlib

/-!
Shallow embedding of `src/main.py` (a Discord shop/currency bot backed by a
spreadsheet), together with theorems settling the specification claims.

The spreadsheet worksheet is modelled as the matrix of string cell values that
`get_all_values()` would return: `Sheet := List (List String)`.  Cells are
1-indexed, matching gspread.  `worksheet.find(q)` scans cells in row-major
order and returns the first cell whose value equals `q`, or `none`.
`worksheet.update_cell(r, c, v)` extends the grid as needed and overwrites
cell `(r, c)`.  Backend exceptions are modelled by an injection point
`failAt : Option Nat`: `some k` means the k-th spreadsheet API call of the
function raises; the Python `except` clause that catches, logs and returns a
default is modelled by a `logged` flag in each result.
-/

/-- A worksheet's cell matrix, as returned by `get_all_values()`. -/
abbrev Sheet := List (List String)

/-- Read a run of decimal digits, accumulating their value; `none` as soon as
a non-digit character appears. -/
def decDigits : List Char → Nat → Option Nat
  | [], acc => some acc
  | c :: cs, acc =>
    if 48 ≤ c.toNat ∧ c.toNat ≤ 57 then decDigits cs (acc * 10 + (c.toNat - 48))
    else none

/-- Model of Python `int(s)` on the strings this program stores: an optional
minus sign followed by at least one decimal digit parses; anything else
(in particular `""` and blank cells) raises `ValueError`, modelled as `none`. -/
def pyInt (s : String) : Option Int :=
  match s.data with
  | [] => none
  | c :: cs =>
    if c = '-' then
      match cs with
      | [] => none
      | _ :: _ => (decDigits cs 0).map (fun n => -(n : Int))
    else (decDigits (c :: cs) 0).map (fun n => (n : Int))

/-- Pad a list to length `n` with copies of `d` (no-op when already long enough). -/
def padTo (l : List α) (n : Nat) (d : α) : List α :=
  l ++ List.replicate (n - l.length) d

/-- `worksheet.update_cell(r, c, v)` (1-indexed), extending the grid as needed. -/
def setCell (st : Sheet) (r c : Nat) (v : String) : Sheet :=
  let rows := padTo st r ([] : List String)
  rows.set (r - 1) ((padTo (rows.getD (r - 1) []) c "").set (c - 1) v)

/-- `worksheet.cell(r, c).value` (1-indexed); out-of-range cells read as `""`. -/
def getCell (st : Sheet) (r c : Nat) : String :=
  (st.getD (r - 1) []).getD (c - 1) ""

/-- Row-major scan of the rows starting at (1-indexed) row number `r`. -/
def findCellAux (q : String) : List (List String) → Nat → Option (Nat × Nat)
  | [], _ => none
  | row :: rest, r =>
    match row.indexOf? q with
    | some c => some (r, c + 1)
    | none => findCellAux q rest (r + 1)

/-- `worksheet.find(q)`: the first cell (row-major, 1-indexed) whose value
equals `q`, or `none` when no cell matches. -/
def findCell (st : Sheet) (q : String) : Option (Nat × Nat) :=
  findCellAux q st 1

/-- Whether the sheet has a row whose user-id column (column 1) is `uid` —
the "row matching userId" of the specification. -/
def hasRowFor (st : Sheet) (uid : String) : Bool :=
  st.any (fun row => row.getD 0 "" = uid)

/-- Result of `get_currency`: the returned integer, the sheet afterwards, and
whether the `except` branch fired (the error was logged). -/
structure GetCurrencyResult where
  val : Int
  sheet : Sheet
  logged : Bool
deriving DecidableEq, Repr

/-- `get_currency(user_id)` from `src/main.py` lines 33–45.  API calls are
numbered 0 (`find`), 1 (`cell` / `get_all_values`), 2 and 3 (the two
`update_cell`s of the lazy-create branch); `failAt = some k` makes call `k`
raise, which the `except` catches, logging and returning `0`.  A balance cell
that `int()` cannot parse likewise raises and is caught. -/
def get_currency (st : Sheet) (user_id : String) (failAt : Option Nat) : GetCurrencyResult :=
  if failAt = some 0 then ⟨0, st, true⟩
  else
    match findCell st user_id with
    | some (r, _c) =>
      if failAt = some 1 then ⟨0, st, true⟩
      else
        match pyInt (getCell st r 2) with
        | some n => ⟨n, st, false⟩
        | none => ⟨0, st, true⟩
    | none =>
      if failAt = some 1 then ⟨0, st, true⟩
      else
        let next_row := st.length + 1
        if failAt = some 2 then ⟨0, st, true⟩
        else
          let st1 := setCell st next_row 1 user_id
          if failAt = some 3 then ⟨0, st1, true⟩
          else ⟨0, setCell st1 next_row 2 "0", false⟩

/-- Result of `update_currency`: the returned boolean, the sheet afterwards,
and whether the `except` branch fired. -/
structure UpdateCurrencyResult where
  ok : Bool
  sheet : Sheet
  logged : Bool
deriving DecidableEq, Repr

/-- `update_currency(user_id, amount)` from `src/main.py` lines 47–56.
API calls: 0 is `find`, 1 is `update_cell`. -/
def update_currency (st : Sheet) (user_id : String) (amount : Int) (failAt : Option Nat) :
    UpdateCurrencyResult :=
  if failAt = some 0 then ⟨false, st, true⟩
  else
    match findCell st user_id with
    | some (r, _c) =>
      if failAt = some 1 then ⟨false, st, true⟩
      else ⟨true, setCell st r 2 (toString amount), false⟩
    | none => ⟨false, st, false⟩

/-- A shop item as built by `get_items`. -/
structure ShopItem where
  name : String
  price : Int
  role_id : Int
  image_filename : Option String
  description : String
deriving DecidableEq, Repr

/-- The dict built for one (length ≥ 3) row of the Items sheet; `none` when
`int(row[1])` or `int(row[2])` raises `ValueError`. -/
def parseRow (row : List String) : Option ShopItem :=
  match pyInt (row.getD 1 ""), pyInt (row.getD 2 "") with
  | some p, some rid =>
    some
      { name := row.getD 0 ""
        price := p
        role_id := rid
        image_filename :=
          if 3 < row.length ∧ row.getD 3 "" ≠ "" then some (row.getD 3 "") else none
        description :=
          if 4 < row.length ∧ row.getD 4 "" ≠ "" then row.getD 4 ""
          else "No description available." }
  | _, _ => none

/-- The accumulation loop of `get_items`; `none` models the exception that
aborts the whole call when some processed row fails integer parsing. -/
def get_itemsAux : List (List String) → Option (List ShopItem)
  | [] => some []
  | row :: rest =>
    if 3 ≤ row.length then
      match parseRow row with
      | none => none
      | some it => (get_itemsAux rest).map (it :: ·)
    else get_itemsAux rest

/-- `get_items()` from `src/main.py` lines 58–80, as a function of the Items
sheet's `get_all_values()` matrix: drops the header row, keeps rows with at
least 3 columns, and returns `[]` when any kept row's `price`/`role_id`
fails to parse (the `except` branch). -/
def get_items (allValues : List (List String)) : List ShopItem :=
  match get_itemsAux (allValues.drop 1) with
  | some items => items
  | none => []

/-- Python slice-index normalisation for `l[start:stop]` with step 1. -/
def normIdx (n : Nat) (i : Int) : Nat :=
  if i < 0 then ((n : Int) + i).toNat else min i.toNat n

/-- Python list slice `l[s:e]` (step 1), including negative-index semantics. -/
def pySlice (l : List α) (s e : Int) : List α :=
  (l.take (normIdx l.length e)).drop (normIdx l.length s)

/-- A navigation button (`Button(style=gray, label, custom_id, disabled)`). -/
structure NavButton where
  label : String
  custom_id : String
  disabled : Bool
deriving DecidableEq, Repr

/-- A `BuyButton` as constructed in `src/main.py` lines 116–119. -/
structure BuyButton where
  label : String
  custom_id : String
  item : ShopItem
deriving DecidableEq, Repr

/-- `BuyButton.__init__(item)`. -/
def BuyButton.init (item : ShopItem) : BuyButton :=
  ⟨s!"Buy {item.name}", s!"buy_{item.role_id}", item⟩

/-- The observable state of a `ShopView` after `__init__`/`update_buttons`:
the buy buttons of the current page and the two navigation buttons. -/
structure ShopView where
  items : List ShopItem
  page : Int
  items_per_page : Nat
  total_pages : Nat
  buyButtons : List BuyButton
  prevButton : NavButton
  nextButton : NavButton
deriving DecidableEq, Repr

/-- `ShopView.__init__(items, page)` from `src/main.py` lines 95–114:
`total_pages = (len(items) + 3 - 1) // 3`, buy buttons for the slice
`items[page*3 : page*3+3]`, previous disabled iff `page == 0`, next disabled
iff `page >= total_pages - 1` (Python integer comparison). -/
def ShopView.init (items : List ShopItem) (page : Int) : ShopView :=
  let items_per_page : Nat := 3
  let total_pages : Nat := (items.length + items_per_page - 1) / items_per_page
  { items := items
    page := page
    items_per_page := items_per_page
    total_pages := total_pages
    buyButtons := (pySlice items (page * 3) (page * 3 + 3)).map BuyButton.init
    prevButton := ⟨"◀️", s!"prev_page_{page}", decide (page = 0)⟩
    nextButton := ⟨"▶️", s!"next_page_{page}", decide ((total_pages : Int) - 1 ≤ page)⟩ }

/-- An ephemeral text reply (`i.response.send(content, ephemeral=...)`). -/
structure Reply where
  content : String
  ephemeral : Bool
deriving DecidableEq, Repr

/-- `BuyButton.callback` from `src/main.py` lines 121–136, as a function of
the Currency sheet's state, the clicking user's id, and the button's item
(no backend failure injected, matching the claims' setting). -/
def BuyButton.callback (st : Sheet) (user_id : String) (item : ShopItem) : Sheet × Reply :=
  let res := get_currency st user_id none
  let price := item.price
  if price ≤ res.val then
    let new_balance := res.val - price
    let upd := update_currency res.sheet user_id new_balance none
    (upd.sheet, ⟨s!"You have successfully purchased the {item.name} role!", true⟩)
  else
    (res.sheet, ⟨"You do not have enough coins to purchase this role.", true⟩)

/-- Insert a `,` before every third digit of a reversed digit list
(the element at reversed position `k` with `0 < k`, `k % 3 = 0` gets a comma
in front of it). -/
def groupDigits : List Char → Nat → List Char
  | [], _ => []
  | c :: cs, k =>
    (if 0 < k ∧ k % 3 = 0 then [',', c] else [c]) ++ groupDigits cs (k + 1)

/-- Model of the Python format `f"{v:,}"`: decimal digits in groups of three
separated by commas, with a leading `-` for negatives. -/
def formatComma (v : Int) : String :=
  let ds := (toString v.natAbs).toList
  (if v < 0 then "-" else "") ++ String.mk ((groupDigits ds.reverse 0).reverse)

/-- The observable content of the embed the `balance` command replies with. -/
structure BalanceEmbed where
  title : String
  description : String
  thumbnail_url : String
  footer : String
  ephemeral : Bool
deriving DecidableEq, Repr

/-- The `balance` slash-command handler from `src/main.py` lines 82–93, as a
function of the Currency sheet, the invoking user's id and avatar URL.
Returns the sheet after `get_currency` ran together with the reply. -/
def balance (st : Sheet) (user_id : String) (avatar_url : String) : Sheet × BalanceEmbed :=
  let res := get_currency st user_id none
  (res.sheet,
    { title := "💰 Your Balance"
      description := s!"You currently have **{formatComma res.val} coins**"
      thumbnail_url := avatar_url
      footer := "Use /shop to browse available items"
      ephemeral := true })

/-- Suffix of `s` after its last occurrence of `c` (the whole string when `c`
does not occur): model of the composite `s.split(c)[-1]`. -/
def lastSegment (c : Char) (s : String) : String :=
  String.mk ((s.toList.reverse.takeWhile (fun x => x ≠ c)).reverse)

/-- Whether `pat` occurs as a contiguous segment of `l`
(model of Python's `pat in s` on strings, as character lists). -/
def hasSub (pat : List Char) : List Char → Bool
  | [] => pat.isEmpty
  | x :: xs => pat.isPrefixOf (x :: xs) || hasSub pat xs

/-- Python's `pat in s` substring test. -/
def strHas (s pat : String) : Bool :=
  hasSub pat.toList s.toList

/-- How a handler answers an interaction: a fresh message
(`i.response.send`) or an in-place edit of the original message
(`i.response.update_message`). -/
inductive ResponseAction
  | sendMessage
  | updateMessage
deriving DecidableEq, Repr

/-- The observable outcome of `on_page_turn`: the rebuilt view, the embed's
field values after the page-number rewrite, and how it was delivered. -/
structure PageTurnOutcome where
  view : ShopView
  fields : List String
  action : ResponseAction
deriving DecidableEq, Repr

/-- `on_page_turn` from `src/main.py` lines 157–169, as a function of the
Items sheet's matrix, the clicked button's `custom_id`, and the original
embed's field values (`fields[1]` is the page field).  `none` models the
exception when `int(custom_id.split("_")[-1])` raises. -/
def on_page_turn (itemRows : List (List String)) (custom_id : String)
    (fields : List String) : Option PageTurnOutcome :=
  match pyInt (lastSegment '_' custom_id) with
  | none => none
  | some page =>
    let direction : Int := if strHas custom_id "next" then 1 else -1
    let new_page := page + direction
    let items := get_items itemRows
    let view := ShopView.init items new_page
    some ⟨view, fields.set 1 s!"{new_page + 1}/{view.total_pages}", .updateMessage⟩

/-- An inbound POST to `/interactions` as the handler observes it:
whether `request.json()` parses, the two signature headers (absent = `none`),
and whether `app.process_request` completes without raising. -/
structure HttpRequest where
  jsonOk : Bool
  sig : Option String
  ts : Option String
  processOk : Bool
deriving DecidableEq, Repr

/-- The response produced for a POST: a status from the handler, or an
exception that escapes `handle_interactions` (raised by `request.json()`
before the `try` block) and is left to the web framework. -/
inductive HttpOutcome
  | ok200
  | unauthorized401
  | error500
  | unhandledError
deriving DecidableEq, Repr

/-- Python truthiness test `not h` on an optional header string:
true for an absent header and for a present-but-empty one. -/
def headerFalsy : Option String → Bool
  | none => true
  | some s => decide (s = "")

/-- `handle_interactions` from `src/main.py` lines 173–186: `request.json()`
runs first (its exception escapes the handler); then `401` when either
signature header is absent or empty (`if not signature or not timestamp`);
then `200`, or `500` when `app.process_request` raises. -/
def handle_interactions (req : HttpRequest) : HttpOutcome :=
  if ¬ req.jsonOk then .unhandledError
  else if headerFalsy req.sig || headerFalsy req.ts then .unauthorized401
  else if req.processOk then .ok200 else .error500

/-- Formalisation of claim C6's reading of the gateway (for refutation): 401
exactly when a signature header is absent, 500 exactly when processing
raises, and 200 otherwise. -/
def handleInteractionsClaim (req : HttpRequest) : HttpOutcome :=
  if req.sig = none || req.ts = none then .unauthorized401
  else if ¬ req.processOk then .error500
  else .ok200

/-- Whether an optional header is absent or empty (the amended 401 condition). -/
def headerBlank : Option String → Bool
  | none => true
  | some s => decide (s.length = 0)

/-- The amended specification of the gateway: a body that fails JSON parsing
raises before the `try` block and escapes the handler; otherwise 401 when a
signature header is absent or empty, 500 when processing raises, 200
otherwise. -/
def handleInteractionsAmended (req : HttpRequest) : HttpOutcome :=
  match req.jsonOk with
  | false => .unhandledError
  | true =>
    if headerBlank req.sig then .unauthorized401
    else if headerBlank req.ts then .unauthorized401
    else
      match req.processOk with
      | true => .ok200
      | false => .error500

/-- Whether a row's `price` and `role_id` cells both parse as integers. -/
def rowOK (row : List String) : Bool :=
  (pyInt (row.getD 1 "")).isSome && (pyInt (row.getD 2 "")).isSome

/-- The number of populated (non-empty) cells of a row. -/
def populatedCount (row : List String) : Nat :=
  (row.filter (fun s => s ≠ "")).length

/-- Formalisation of claim C4's reading of `listItems` (for refutation):
rows with fewer than 3 populated columns are skipped, and only a kept row
whose `price`/`role_id` fails to parse empties the whole result. -/
def get_itemsClaim (allValues : List (List String)) : List ShopItem :=
  let body := (allValues.drop 1).filter (fun row => 3 ≤ populatedCount row)
  if body.all rowOK then body.filterMap parseRow else []

/-- The item the amended specification assigns to a kept, well-formed row:
fields from columns 1–5, with empty-or-missing image defaulting to `none` and
empty-or-missing description defaulting to the stock text. -/
def specItemOfRow (row : List String) : ShopItem :=
  { name := row.getD 0 ""
    price := (pyInt (row.getD 1 "")).getD 0
    role_id := (pyInt (row.getD 2 "")).getD 0
    image_filename := if row.getD 3 "" = "" then none else some (row.getD 3 "")
    description :=
      if row.getD 4 "" = "" then "No description available." else row.getD 4 "" }

/-- The amended specification of `listItems`: drop the header, keep rows with
at least 3 columns (populated or not), and return them in source order unless
some kept row's `price`/`role_id` fails integer parsing, in which case the
whole call returns the empty list. -/
def get_itemsSpec (allValues : List (List String)) : List ShopItem :=
  let body := (allValues.drop 1).filter (fun row => 3 ≤ row.length)
  if body.all rowOK then body.map specItemOfRow else []

lemma getD_eq_empty_of_len_le (row : List String) (n : Nat) (h : row.length ≤ n) :
    row.getD n "" = "" :=
  List.getD_eq_default _ _ h

lemma parseRow_eq_spec (row : List String) (h : rowOK row = true) :
    parseRow row = some (specItemOfRow row) := by
  unfold rowOK at h
  rw [Bool.and_eq_true] at h
  obtain ⟨h1, h2⟩ := h
  rw [Option.isSome_iff_exists] at h1 h2
  obtain ⟨p, hp⟩ := h1
  obtain ⟨q, hq⟩ := h2
  have himg : (if 3 < row.length ∧ row.getD 3 "" ≠ "" then some (row.getD 3 "") else none)
      = (if row.getD 3 "" = "" then none else some (row.getD 3 "")) := by
    by_cases he : row.getD 3 "" = ""
    · rw [if_pos he, if_neg]
      rintro ⟨-, hne⟩
      exact hne he
    · have hlen : 3 < row.length := by
        by_contra hc
        exact he (getD_eq_empty_of_len_le row 3 (by omega))
      rw [if_neg he, if_pos ⟨hlen, he⟩]
  have hdesc : (if 4 < row.length ∧ row.getD 4 "" ≠ "" then row.getD 4 ""
        else "No description available.")
      = (if row.getD 4 "" = "" then "No description available." else row.getD 4 "") := by
    by_cases he : row.getD 4 "" = ""
    · rw [if_pos he, if_neg]
      rintro ⟨-, hne⟩
      exact hne he
    · have hlen : 4 < row.length := by
        by_contra hc
        exact he (getD_eq_empty_of_len_le row 4 (by omega))
      rw [if_neg he, if_pos ⟨hlen, he⟩]
  simp only [parseRow, specItemOfRow, hp, hq, Option.getD_some]
  rw [himg, hdesc]

lemma parseRow_isSome_eq_rowOK (row : List String) :
    (parseRow row).isSome = rowOK row := by
  unfold parseRow rowOK
  cases hp : pyInt (row.getD 1 "") <;> cases hq : pyInt (row.getD 2 "") <;> simp

lemma get_itemsAux_eq (l : List (List String)) :
    get_itemsAux l =
      if (l.filter (fun row => 3 ≤ row.length)).all rowOK
      then some ((l.filter (fun row => 3 ≤ row.length)).map specItemOfRow)
      else none := by
  induction l with
  | nil => simp [get_itemsAux]
  | cons row rest ih =>
    by_cases h3 : 3 ≤ row.length
    · rw [show (get_itemsAux (row :: rest))
          = (match parseRow row with
             | none => none
             | some it => (get_itemsAux rest).map (it :: ·)) by
        simp [get_itemsAux, h3]]
      rw [List.filter_cons_of_pos (by simpa using h3)]
      cases hr : parseRow row with
      | none =>
        have hok : rowOK row = false := by
          rw [← parseRow_isSome_eq_rowOK, hr]
          rfl
        simp [List.all_cons, hok]
      | some it =>
        have hok : rowOK row = true := by
          rw [← parseRow_isSome_eq_rowOK, hr]
          rfl
        have hit : it = specItemOfRow row := by
          have := parseRow_eq_spec row hok
          rw [hr] at this
          exact Option.some.inj this
        subst hit
        rw [ih]
        by_cases hall : (rest.filter (fun row => 3 ≤ row.length)).all rowOK = true
        · simp [List.all_cons, hok, hall]
        · simp only [Bool.not_eq_true] at hall
          simp [List.all_cons, hok, hall]
    · rw [show (get_itemsAux (row :: rest)) = get_itemsAux rest by
        simp [get_itemsAux, h3]]
      rw [List.filter_cons_of_neg (by simpa using h3)]
      exact ih

lemma padTo_cons (x : α) (l : List α) (n : Nat) (d : α) :
    padTo (x :: l) (n + 1) d = x :: padTo l n d := by
  unfold padTo
  have h : n + 1 - (x :: l).length = n - l.length := by simp
  rw [h]
  rfl

lemma setCell_cons (x : List String) (l : Sheet) (k c : Nat) (v : String) :
    setCell (x :: l) (k + 2) c v = x :: setCell l (k + 1) c v := by
  simp only [setCell]
  rw [show k + 2 = (k + 1) + 1 by omega, padTo_cons]
  rfl

lemma setCell_append_len1 (st : Sheet) (v : String) :
    setCell st (st.length + 1) 1 v = st ++ [[v]] := by
  induction st with
  | nil => rfl
  | cons row rest ih =>
    rw [show (row :: rest).length + 1 = rest.length + 2 by simp]
    rw [setCell_cons, ih]
    rfl

lemma setCell_append_len2 (st : Sheet) (v w : String) :
    setCell (st ++ [[v]]) (st.length + 1) 2 w = st ++ [[v, w]] := by
  induction st with
  | nil => rfl
  | cons row rest ih =>
    rw [show ((row :: rest) ++ [[v]]) = row :: (rest ++ [[v]]) by rfl]
    rw [show (row :: rest).length + 1 = rest.length + 2 by simp]
    rw [setCell_cons, ih]
    rfl

/-- The lazy-create branch of `get_currency` appends exactly one row
`[user_id, "0"]` at the end of the sheet. -/
lemma setCell_append_fresh (st : Sheet) (user_id : String) :
    setCell (setCell st (st.length + 1) 1 user_id) (st.length + 1) 2 "0"
      = st ++ [[user_id, "0"]] := by
  rw [setCell_append_len1, setCell_append_len2]

/-- Claim C1: for a user whose id is found in the user-id column of row `r`
with a balance cell parsing as `b`, the purchase handler debits `b - price`
into that balance cell and replies ephemerally with the success message
naming the item when `price ≤ b`, and leaves the sheet untouched and replies
ephemerally with the rejection message when `b < price`. -/
theorem buy_callback_correct (st : Sheet) (user_id : String) (item : ShopItem)
    (r : Nat) (b : Int)
    (h1 : findCell st user_id = some (r, 1))
    (h2 : pyInt (getCell st r 2) = some b) :
    (item.price ≤ b →
      BuyButton.callback st user_id item
        = (setCell st r 2 (toString (b - item.price)),
           ⟨s!"You have successfully purchased the {item.name} role!", true⟩))
    ∧ (b < item.price →
      BuyButton.callback st user_id item
        = (st, ⟨"You do not have enough coins to purchase this role.", true⟩)) := by
  have hg : get_currency st user_id none = ⟨b, st, false⟩ := by
    simp [get_currency, h1, h2]
  have hu : update_currency st user_id (b - item.price) none
      = ⟨true, setCell st r 2 (toString (b - item.price)), false⟩ := by
    simp [update_currency, h1]
  constructor
  · intro h
    simp only [BuyButton.callback, hg, if_pos h, hu]
  · intro h
    simp only [BuyButton.callback, hg, if_neg (not_le.mpr h)]

/-- Concrete run of C1: balance 100, price 60 succeeds with new balance 40;
balance 50, price 60 is rejected with the balance left at 50. -/
theorem buy_callback_correct_witness :
    BuyButton.callback [["user_id", "balance"], ["u", "100"]] "u"
        ⟨"VIP", 60, 5, none, "d"⟩
      = ([["user_id", "balance"], ["u", "40"]],
         ⟨"You have successfully purchased the VIP role!", true⟩)
    ∧ BuyButton.callback [["user_id", "balance"], ["u", "50"]] "u"
        ⟨"VIP", 60, 5, none, "d"⟩
      = ([["user_id", "balance"], ["u", "50"]],
         ⟨"You do not have enough coins to purchase this role.", true⟩) := by
  constructor
  · have h := (buy_callback_correct [["user_id", "balance"], ["u", "100"]] "u"
      ⟨"VIP", 60, 5, none, "d"⟩ 2 100 (by decide) (by decide)).1 (by decide)
    exact h.trans (by decide)
  · exact (buy_callback_correct [["user_id", "balance"], ["u", "50"]] "u"
      ⟨"VIP", 60, 5, none, "d"⟩ 2 50 (by decide) (by decide)).2 (by decide)

/-- Claim C2 fails as stated: on the sheet `[[user_id, balance], [5, 7]]` the
user id `7` has no row (its row is absent), yet `get_currency` returns `7`
(not `0`) and appends no `(7, 0)` row — `find` matched user 5's balance cell. -/
theorem get_currency_claim_counterexample :
    hasRowFor [["user_id", "balance"], ["5", "7"]] "7" = false
    ∧ (get_currency [["user_id", "balance"], ["5", "7"]] "7" none).val = 7
    ∧ (get_currency [["user_id", "balance"], ["5", "7"]] "7" none).val ≠ 0
    ∧ (get_currency [["user_id", "balance"], ["5", "7"]] "7" none).sheet
        = [["user_id", "balance"], ["5", "7"]] := by
  decide

/-- Claim C2 as amended: `get_currency` locates the first cell anywhere in the
sheet (row-major) equal to `userId`.  If some cell in row `r` matches, it
returns the integer parsed from row `r`'s balance column with no mutation
(`0`, logged, if that cell does not parse); if no cell matches, it appends
exactly one new row `(userId, "0")` and returns `0`; whenever a backend
failure (or parse failure) is logged, `0` is returned — the error is never
propagated. -/
theorem get_currency_amended (st : Sheet) (user_id : String) (failAt : Option Nat)
    (r c : Nat) :
    ((get_currency st user_id failAt).logged = true →
      (get_currency st user_id failAt).val = 0)
    ∧ (findCell st user_id = some (r, c) →
        get_currency st user_id none
          = ⟨(pyInt (getCell st r 2)).getD 0, st, (pyInt (getCell st r 2)).isNone⟩)
    ∧ (findCell st user_id = none →
        get_currency st user_id none = ⟨0, st ++ [[user_id, "0"]], false⟩) := by
  refine ⟨?_, ?_, ?_⟩
  · unfold get_currency
    split
    · intro _; rfl
    · split
      · split
        · intro _; rfl
        · split
          · intro h; simp at h
          · intro _; rfl
      · split
        · intro _; rfl
        · split
          · intro _; rfl
          · split
            · intro _; rfl
            · intro h; simp at h
  · intro h
    have hg : get_currency st user_id none
        = (match pyInt (getCell st r 2) with
           | some n => ⟨n, st, false⟩
           | none => ⟨0, st, true⟩) := by
      simp [get_currency, h]
    rw [hg]
    cases hp : pyInt (getCell st r 2) <;> simp [hp]
  · intro h
    have hg : get_currency st user_id none
        = ⟨0, setCell (setCell st (st.length + 1) 1 user_id) (st.length + 1) 2 "0",
            false⟩ := by
      simp [get_currency, h]
    rw [hg, setCell_append_fresh]

/-- Concrete runs of C2 as amended: a known user's balance is returned with no
mutation; an unknown user gets exactly one appended `(id, 0)` row and `0`;
an injected backend failure yields `0`. -/
theorem get_currency_amended_witness :
    get_currency [["user_id", "balance"], ["u", "5"]] "u" none
      = ⟨5, [["user_id", "balance"], ["u", "5"]], false⟩
    ∧ get_currency [["user_id", "balance"]] "9" none
      = ⟨0, [["user_id", "balance"], ["9", "0"]], false⟩
    ∧ (get_currency [["user_id", "balance"], ["u", "5"]] "u" (some 0)).val = 0 := by
  refine ⟨?_, ?_, ?_⟩
  · have h := (get_currency_amended [["user_id", "balance"], ["u", "5"]] "u" none 2 1).2.1
      (by decide)
    exact h.trans (by decide)
  · have h := (get_currency_amended [["user_id", "balance"]] "9" none 1 1).2.2 (by decide)
    exact h.trans (by decide)
  · exact (get_currency_amended [["user_id", "balance"], ["u", "5"]] "u" (some 0) 2 1).1
      (by decide)

/-- Claim C3 fails as stated: on the sheet `[[user_id, balance], [5, 7]]` no
row for user id `7` exists, yet `update_currency "7" 9` returns `true` and
overwrites user 5's balance cell (it matched the balance value `7`). -/
theorem update_currency_claim_counterexample :
    hasRowFor [["user_id", "balance"], ["5", "7"]] "7" = false
    ∧ update_currency [["user_id", "balance"], ["5", "7"]] "7" 9 none
        = ⟨true, [["user_id", "balance"], ["5", "9"]], false⟩ := by
  decide

/-- Claim C3 as amended: `update_currency` locates the first cell anywhere in
the sheet (row-major) equal to `userId`.  If some cell in row `r` matches, it
overwrites row `r`'s balance cell (even when the matching cell is not in the
user-id column) and returns `true`; if no cell matches, it returns `false`
and performs no write; whenever a backend failure is logged, `false` is
returned. -/
theorem update_currency_amended (st : Sheet) (user_id : String) (amount : Int)
    (failAt : Option Nat) (r c : Nat) :
    ((update_currency st user_id amount failAt).logged = true →
      (update_currency st user_id amount failAt).ok = false)
    ∧ (findCell st user_id = some (r, c) →
        update_currency st user_id amount none
          = ⟨true, setCell st r 2 (toString amount), false⟩)
    ∧ (findCell st user_id = none →
        update_currency st user_id amount none = ⟨false, st, false⟩) := by
  refine ⟨?_, ?_, ?_⟩
  · unfold update_currency
    split
    · intro _; rfl
    · split
      · split
        · intro _; rfl
        · intro h; simp at h
      · intro h; simp at h
  · intro h
    simp [update_currency, h]
  · intro h
    simp [update_currency, h]

/-- Concrete runs of C3 as amended: a known user's balance cell is overwritten
and `true` returned; an unknown id returns `false` with no write; an injected
backend failure returns `false`. -/
theorem update_currency_amended_witness :
    update_currency [["user_id", "balance"], ["u", "5"]] "u" 9 none
      = ⟨true, [["user_id", "balance"], ["u", "9"]], false⟩
    ∧ update_currency [["user_id", "balance"]] "x" 9 none
      = ⟨false, [["user_id", "balance"]], false⟩
    ∧ (update_currency [["user_id", "balance"], ["u", "5"]] "u" 9 (some 0)).ok = false := by
  refine ⟨?_, ?_, ?_⟩
  · have h := (update_currency_amended [["user_id", "balance"], ["u", "5"]] "u" 9 none 2 1).2.1
      (by decide)
    exact h.trans (by decide)
  · exact (update_currency_amended [["user_id", "balance"]] "x" 9 none 1 1).2.2 (by decide)
  · exact (update_currency_amended [["user_id", "balance"], ["u", "5"]] "u" 9 (some 0) 2 1).1
      (by decide)

/-- Claim C4 fails as stated: on an Items sheet whose second data row is
`["b", "", ""]` (3 columns, only 1 populated), the claim's reading skips that
row and keeps item `a`, but the code keeps the row (its length is 3),
`int("")` raises, and the whole call returns the empty list. -/
theorem get_items_claim_counterexample :
    get_items [["name", "price", "role_id"], ["a", "1", "2"], ["b", "", ""]] = []
    ∧ get_itemsClaim [["name", "price", "role_id"], ["a", "1", "2"], ["b", "", ""]]
        = [⟨"a", 1, 2, none, "No description available."⟩]
    ∧ get_items [["name", "price", "role_id"], ["a", "1", "2"], ["b", "", ""]]
        ≠ get_itemsClaim [["name", "price", "role_id"], ["a", "1", "2"], ["b", "", ""]] := by
  decide

/-- Claim C4 as amended: `get_items` returns, in source row order, one item
per non-header row having at least 3 columns (whether populated or not),
parsing `price` and `role_id` as integers, defaulting a missing-or-empty
image to `none` and a missing-or-empty description to
"No description available."; if any such row's `price`/`role_id` fails
integer parsing the whole call returns the empty sequence. -/
theorem get_items_amended (allValues : List (List String)) :
    get_items allValues = get_itemsSpec allValues := by
  unfold get_items get_itemsSpec
  rw [get_itemsAux_eq]
  by_cases h : ((allValues.drop 1).filter (fun row => 3 ≤ row.length)).all rowOK = true
  · rw [if_pos h, if_pos h]
  · rw [if_neg h, if_neg h]

/-- Claim C6 fails as stated: a request whose body parses, whose signature
header is present but empty, and whose processing would succeed is answered
`401` by the code, while the claim (no header absent, no exception) requires
`200`. -/
theorem handle_interactions_claim_counterexample :
    handle_interactions ⟨true, some "", some "t", true⟩ = .unauthorized401
    ∧ handleInteractionsClaim ⟨true, some "", some "t", true⟩ = .ok200
    ∧ HttpOutcome.unauthorized401 ≠ HttpOutcome.ok200 := by
  decide

/-- Claim C6 as amended: a body that fails JSON parsing raises before the
header check and escapes the handler; otherwise the response is `401` when
either signature header is absent or empty, `500` when verification or
routing raises (caught and logged), and `200` otherwise. -/
theorem handle_interactions_amended (req : HttpRequest) :
    handle_interactions req = handleInteractionsAmended req := by
  obtain ⟨j, sg, t, pr⟩ := req
  have hb : ∀ o : Option String, headerFalsy o = headerBlank o := by
    intro o
    cases o with
    | none => rfl
    | some s =>
      show decide (s = "") = decide (s.length = 0)
      cases s with
      | mk data =>
        cases data with
        | nil => rfl
        | cons c cs =>
          simp [String.length, String.ext_iff]
  cases j <;> cases pr <;>
    simp [handle_interactions, handleInteractionsAmended, hb] <;>
    cases hs : headerBlank sg <;> cases ht : headerBlank t <;> simp [hs, ht]

/-- Claim C7 fails as stated: for a first-time user (`"7"` has no row),
handling `/balance` mutates the stored state — `get_currency`'s lazy-create
appends the row `("7", "0")`. -/
theorem balance_claim_counterexample :
    (balance [["user_id", "balance"]] "7" "avatar").1
      = [["user_id", "balance"], ["7", "0"]]
    ∧ (balance [["user_id", "balance"]] "7" "avatar").1 ≠ [["user_id", "balance"]] := by
  decide

/-- Claim C7 as amended: for every user whose id is already present in the
sheet, `/balance` is read-only (the Currency sheet is returned unchanged),
and its only output is an ephemeral embed whose description shows the
current balance formatted with thousands separators, with the user's avatar
as thumbnail and a `/shop` hint as footer.  For a first-time user the
`get_currency` call appends that user's `(id, "0")` row. -/
theorem balance_amended (st : Sheet) (user_id avatar_url : String) (r c : Nat)
    (h : findCell st user_id = some (r, c)) :
    (balance st user_id avatar_url).1 = st
    ∧ (balance st user_id avatar_url).2
        = { title := "💰 Your Balance"
            description :=
              s!"You currently have **{formatComma (get_currency st user_id none).val} coins**"
            thumbnail_url := avatar_url
            footer := "Use /shop to browse available items"
            ephemeral := true } := by
  have hs : (get_currency st user_id none).sheet = st := by
    unfold get_currency
    rw [if_neg (by simp)]
    rw [show findCell st user_id = some (r, c) from h]
    cases hp : pyInt (getCell st r 2) <;> simp [hp]
  exact ⟨hs, rfl⟩

/-- Concrete run of C7 as amended: a known user with balance 1234 sees
"1,234 coins", and the sheet is unchanged. -/
theorem balance_amended_witness :
    (balance [["user_id", "balance"], ["u", "1234"]] "u" "http://a").1
      = [["user_id", "balance"], ["u", "1234"]]
    ∧ (balance [["user_id", "balance"], ["u", "1234"]] "u" "http://a").2.description
      = "You currently have **1,234 coins**" := by
  refine ⟨(balance_amended [["user_id", "balance"], ["u", "1234"]] "u" "http://a" 2 1
    (by decide)).1, by decide⟩

lemma pySlice_page (l : List α) (p : Int) (hp : 0 ≤ p) :
    pySlice l (p * 3) (p * 3 + 3) = (l.drop (p * 3).toNat).take 3 := by
  unfold pySlice normIdx
  rw [if_neg (show ¬ (p * 3 + 3 < 0) by omega), if_neg (show ¬ (p * 3 < 0) by omega)]
  have he : (p * 3 + 3).toNat = (p * 3).toNat + 3 := by omega
  rw [he]
  rcases le_or_lt l.length ((p * 3).toNat) with hle | hlt
  · have h1 : min (p * 3).toNat l.length = l.length := by omega
    rw [h1]
    rw [List.drop_eq_nil_of_le (by rw [List.length_take]; omega)]
    rw [List.drop_eq_nil_of_le hle]
    rfl
  · have h1 : min (p * 3).toNat l.length = (p * 3).toNat := by omega
    rw [h1, List.drop_take]
    apply List.take_eq_take.mpr
    rw [List.length_drop]
    omega

/-- Claim C5: for every item list and in-range page `p` (`0 ≤ p` and
`p < totalPages`): `total_pages` is the ceiling of `len/3` (characterised by
`len ≤ 3·totalPages < len + 3`), the view's purchase buttons are exactly one
`BuyButton` per item of the slice `items[3p : 3p+3]`, the previous button is
disabled exactly when `p = 0`, and the next button exactly when
`totalPages - 1 ≤ p`. -/
theorem shopView_pager_correct (items : List ShopItem) (p : Int)
    (h0 : 0 ≤ p) (h1 : p < ((ShopView.init items p).total_pages : Int)) :
    (items.length ≤ 3 * (ShopView.init items p).total_pages
      ∧ 3 * (ShopView.init items p).total_pages < items.length + 3)
    ∧ (ShopView.init items p).buyButtons
        = ((items.drop (p * 3).toNat).take 3).map BuyButton.init
    ∧ ((ShopView.init items p).prevButton.disabled = true ↔ p = 0)
    ∧ ((ShopView.init items p).nextButton.disabled = true
        ↔ ((ShopView.init items p).total_pages : Int) - 1 ≤ p) := by
  have htp : (ShopView.init items p).total_pages = (items.length + 3 - 1) / 3 := rfl
  have hbb : (ShopView.init items p).buyButtons
      = (pySlice items (p * 3) (p * 3 + 3)).map BuyButton.init := rfl
  have hprev : (ShopView.init items p).prevButton.disabled = decide (p = 0) := rfl
  have hnext : (ShopView.init items p).nextButton.disabled
      = decide (((((items.length + 3 - 1) / 3 : Nat)) : Int) - 1 ≤ p) := rfl
  refine ⟨?_, ?_, ?_, ?_⟩
  · rw [htp]
    omega
  · rw [hbb, pySlice_page items p h0]
  · rw [hprev]
    simp
  · rw [hnext, htp]
    simp

/-- A concrete 7-item catalogue (the claim's pager example). -/
def items7 : List ShopItem :=
  [⟨"i1", 1, 11, none, "d"⟩, ⟨"i2", 2, 12, none, "d"⟩, ⟨"i3", 3, 13, none, "d"⟩,
   ⟨"i4", 4, 14, none, "d"⟩, ⟨"i5", 5, 15, none, "d"⟩, ⟨"i6", 6, 16, none, "d"⟩,
   ⟨"i7", 7, 17, none, "d"⟩]

/-- Concrete run of C5: with 7 items `total_pages = 3`; page 0 shows items
1–3 with previous disabled and next enabled; page 2 shows item 7 alone with
next disabled. -/
theorem shopView_pager_correct_witness :
    (ShopView.init items7 0).buyButtons = ((items7.drop 0).take 3).map BuyButton.init
    ∧ (ShopView.init items7 2).buyButtons = ((items7.drop 6).take 3).map BuyButton.init
    ∧ (ShopView.init items7 0).total_pages = 3
    ∧ (ShopView.init items7 0).buyButtons.length = 3
    ∧ (ShopView.init items7 0).prevButton.disabled = true
    ∧ (ShopView.init items7 0).nextButton.disabled = false
    ∧ (ShopView.init items7 2).buyButtons
        = [BuyButton.init ⟨"i7", 7, 17, none, "d"⟩]
    ∧ (ShopView.init items7 2).nextButton.disabled = true := by
  refine ⟨?_, ?_, by decide, by decide, by decide, by decide, by decide, by decide⟩
  · exact ((shopView_pager_correct items7 0 (by decide) (by decide)).2.1).trans (by decide)
  · exact ((shopView_pager_correct items7 2 (by decide) (by decide)).2.1).trans (by decide)

/-- Claim C9: Shop View construction is deterministic — identical
`(items, page)` inputs yield identical views (buy buttons, tags, navigation
buttons and disabled flags); the construction reads nothing else. -/
theorem shopView_deterministic (items₁ items₂ : List ShopItem) (p₁ p₂ : Int)
    (h : items₁ = items₂) (hp : p₁ = p₂) :
    ShopView.init items₁ p₁ = ShopView.init items₂ p₂ := by
  rw [h, hp]

/-- Concrete run of C9 at `(items7, 1)`. -/
theorem shopView_deterministic_witness :
    ShopView.init items7 1 = ShopView.init items7 1 :=
  shopView_deterministic items7 items7 1 1 rfl rfl

/-- Claim C10: for every integer page `p` with `totalPages ≤ p` (reachable
only through a forged or replayed tag), view construction still completes —
it is a total function — with an empty slice `items[3p : 3p+3]`, hence zero
purchase buttons, and the next button disabled. -/
theorem shopView_out_of_range (items : List ShopItem) (p : Int)
    (h : ((ShopView.init items p).total_pages : Int) ≤ p) :
    (ShopView.init items p).buyButtons = []
    ∧ (ShopView.init items p).nextButton.disabled = true := by
  have htp : (ShopView.init items p).total_pages = (items.length + 3 - 1) / 3 := rfl
  rw [htp] at h
  constructor
  · have hbb : (ShopView.init items p).buyButtons
        = (pySlice items (p * 3) (p * 3 + 3)).map BuyButton.init := rfl
    rw [hbb, pySlice_page items p (by omega)]
    rw [List.drop_eq_nil_of_le (by omega)]
    rfl
  · have hnext : (ShopView.init items p).nextButton.disabled
        = decide (((((items.length + 3 - 1) / 3 : Nat)) : Int) - 1 ≤ p) := rfl
    rw [hnext]
    simp only [decide_eq_true_eq]
    omega

/-- Concrete run of C10: page 5 of the 7-item catalogue (totalPages = 3)
builds a view with no purchase buttons and next disabled. -/
theorem shopView_out_of_range_witness :
    (ShopView.init items7 5).buyButtons = []
    ∧ (ShopView.init items7 5).nextButton.disabled = true :=
  shopView_out_of_range items7 5 (by decide)

lemma takeWhileStops (p : α → Bool) (l₁ : List α) (x : α) (l₂ : List α)
    (h1 : ∀ a ∈ l₁, p a = true) (h2 : p x = false) :
    (l₁ ++ x :: l₂).takeWhile p = l₁ := by
  induction l₁ with
  | nil => simp [List.takeWhile_cons, h2]
  | cons a as ih =>
    have ha : p a = true := h1 a (by simp)
    simp [List.takeWhile_cons, ha, ih (fun b hb => h1 b (by simp [hb]))]

lemma lastSegment_of_data (cid : String) (pre : List Char) (s : String)
    (hd : cid.data = pre ++ '_' :: s.data)
    (h : ∀ ch ∈ s.data, ch ≠ '_') :
    lastSegment '_' cid = s := by
  unfold lastSegment
  have ht : cid.toList = pre ++ '_' :: s.data := hd
  rw [ht]
  have hrev : (pre ++ '_' :: s.data).reverse = s.data.reverse ++ '_' :: pre.reverse := by
    simp
  rw [hrev]
  rw [takeWhileStops _ s.data.reverse '_' pre.reverse
    (fun a ha => decide_eq_true (h a (List.mem_reverse.mp ha))) (by simp)]
  rw [List.reverse_reverse]

lemma mem_of_hasSub_cons (c : Char) (pat l : List Char)
    (h : hasSub (c :: pat) l = true) : c ∈ l := by
  induction l with
  | nil => simp [hasSub] at h
  | cons x xs ih =>
    rw [show hasSub (c :: pat) (x :: xs)
        = ((c :: pat).isPrefixOf (x :: xs) || hasSub (c :: pat) xs) from rfl] at h
    rcases Bool.or_eq_true_iff.mp h with hp | hs
    · rw [show (c :: pat).isPrefixOf (x :: xs) = (c == x && pat.isPrefixOf xs) from rfl]
        at hp
      rcases Bool.and_eq_true_iff.mp hp with ⟨hcx, -⟩
      rw [show x = c from (eq_of_beq hcx).symm]
      exact List.mem_cons_self c xs
    · exact List.mem_cons_of_mem x (ih hs)

/-- Claim C8: for a click on a tag of the form `next_page_{p}` or
`prev_page_{p}` (a digit string `s` standing for the origin page `p`), the
handler computes `p + 1` (next) or `p - 1` (prev), re-fetches the item list
fresh, rebuilds the Shop View at the new page, rewrites the embed's second
field to `newPage+1/totalPages`, and answers by updating the original
message in place rather than sending a new one. -/
theorem on_page_turn_correct (itemRows : List (List String)) (fields : List String)
    (s : String) (p : Int)
    (hparse : pyInt s = some p)
    (hus : ∀ ch ∈ s.data, ch ≠ '_')
    (hn : 'n' ∉ s.data) :
    on_page_turn itemRows ("next_page_" ++ s) fields
      = some ⟨ShopView.init (get_items itemRows) (p + 1),
          fields.set 1
            s!"{p + 1 + 1}/{(ShopView.init (get_items itemRows) (p + 1)).total_pages}",
          .updateMessage⟩
    ∧ on_page_turn itemRows ("prev_page_" ++ s) fields
      = some ⟨ShopView.init (get_items itemRows) (p - 1),
          fields.set 1
            s!"{p - 1 + 1}/{(ShopView.init (get_items itemRows) (p - 1)).total_pages}",
          .updateMessage⟩ := by
  constructor
  · have hseg : lastSegment '_' ("next_page_" ++ s) = s :=
      lastSegment_of_data _ "next_page".data s rfl hus
    have hdir : strHas ("next_page_" ++ s) "next" = true := by
      show hasSub "next".toList ("next_page_" ++ s).toList = true
      rw [show ("next_page_" ++ s).toList
          = 'n' :: 'e' :: 'x' :: 't' :: ("_page_".data ++ s.data) from rfl]
      rw [show hasSub "next".toList ('n' :: 'e' :: 'x' :: 't' :: ("_page_".data ++ s.data))
          = ("next".toList.isPrefixOf
              ('n' :: 'e' :: 'x' :: 't' :: ("_page_".data ++ s.data))
             || hasSub "next".toList ('e' :: 'x' :: 't' :: ("_page_".data ++ s.data)))
          from rfl]
      rw [show "next".toList.isPrefixOf
          ('n' :: 'e' :: 'x' :: 't' :: ("_page_".data ++ s.data)) = true from by
        simp [List.isPrefixOf]]
      rfl
    simp only [on_page_turn, hseg, hparse, hdir, if_true]
  · have hseg : lastSegment '_' ("prev_page_" ++ s) = s :=
      lastSegment_of_data _ "prev_page".data s rfl hus
    have hdir : strHas ("prev_page_" ++ s) "next" = false := by
      apply Bool.eq_false_iff.mpr
      intro hcontra
      have hmem : 'n' ∈ ("prev_page_" ++ s).toList :=
        mem_of_hasSub_cons 'n' "ext".data _ hcontra
      rw [show ("prev_page_" ++ s).toList = "prev_page_".data ++ s.data from rfl] at hmem
      rcases List.mem_append.mp hmem with hpre | hs
      · revert hpre
        decide
      · exact hn hs
    simp only [on_page_turn, hseg, hparse, hdir, if_false, Bool.false_eq_true]
    rw [show p + (-1 : Int) = p - 1 from by omega]

/-- A small concrete Items sheet for the C8 witness. -/
def itemRowsW : List (List String) :=
  [["n", "p", "r"], ["a", "1", "2"]]

/-- Concrete embed field values for the C8 witness. -/
def fieldsW : List String :=
  ["bal", "4/1"]

/-- Concrete run of C8 at origin page 3: `next_page_3` rebuilds at page 4 and
`prev_page_3` at page 2, both replacing the message in place. -/
theorem on_page_turn_correct_witness :
    on_page_turn itemRowsW ("next_page_" ++ "3") fieldsW
      = some ⟨ShopView.init (get_items itemRowsW) (3 + 1),
          fieldsW.set 1
            s!"{3 + 1 + 1}/{(ShopView.init (get_items itemRowsW) (3 + 1)).total_pages}",
          .updateMessage⟩
    ∧ on_page_turn itemRowsW ("prev_page_" ++ "3") fieldsW
      = some ⟨ShopView.init (get_items itemRowsW) (3 - 1),
          fieldsW.set 1
            s!"{3 - 1 + 1}/{(ShopView.init (get_items itemRowsW) (3 - 1)).total_pages}",
          .updateMessage⟩ :=
  on_page_turn_correct itemRowsW fieldsW "3" 3
    (by decide) (by decide) (by decide)
